import Mathlib

/-!
Verification of the `S3Minio` gateway (`src/s3_minio.py`) against its
natural-language specification.

The Python class wraps a boto3 S3 client.  We embed it shallowly:

* the external world (local staging files, local directories, the bucket's
  objects) is an explicit `World` record threaded through each operation;
* exceptions are a small inductive `Exc` mirroring the Python exception
  kinds that occur in the source, with an explicit `__cause__` chain;
* the outcome of each external SDK call is determined by the world: the
  nominal S3/filesystem semantics plus per-key injected failures
  (association lists in the world), so that claims quantifying over
  "every underlying SDK exception" can be stated;
* each performed external call is recorded in an operation trace, so that
  claims of the form "no upload is attempted for subsequent keys" are
  statements about the trace.
-/

namespace S3MinioModel

/-- Python exception values as they occur in `s3_minio.py`: botocore
`ClientError` (carrying the HTTP-level error code), non-`ClientError`
SDK failures such as an unreachable endpoint, `OSError` from the local
filesystem, `ImportError`, and `ValueError`; the `Option Exc` field is
the `__cause__` attached by `raise ... from exc`. -/
inductive Exc where
  | clientError (code : String)
  | connectionError (msg : String)
  | osError (msg : String)
  | importError (msg : String) (cause : Option Exc)
  | valueError (msg : String) (cause : Option Exc)
  deriving Repr

/-- Decidable equality for `Exc` (the nested `Option` defeats `deriving`). -/
def Exc.deq : (a b : Exc) → Decidable (a = b)
  | .clientError a, .clientError b =>
    match String.decEq a b with
    | .isTrue h => .isTrue (by rw [h])
    | .isFalse h => .isFalse (by intro he; injection he with h1; exact h h1)
  | .connectionError a, .connectionError b =>
    match String.decEq a b with
    | .isTrue h => .isTrue (by rw [h])
    | .isFalse h => .isFalse (by intro he; injection he with h1; exact h h1)
  | .osError a, .osError b =>
    match String.decEq a b with
    | .isTrue h => .isTrue (by rw [h])
    | .isFalse h => .isFalse (by intro he; injection he with h1; exact h h1)
  | .importError m1 none, .importError m2 none =>
    match String.decEq m1 m2 with
    | .isTrue h => .isTrue (by rw [h])
    | .isFalse h => .isFalse (by intro he; injection he with h1 _; exact h h1)
  | .importError _ none, .importError _ (some _) => .isFalse (by intro he; simp at he)
  | .importError _ (some _), .importError _ none => .isFalse (by intro he; simp at he)
  | .importError m1 (some c1), .importError m2 (some c2) =>
    match String.decEq m1 m2, Exc.deq c1 c2 with
    | .isTrue h1, .isTrue h2 => .isTrue (by rw [h1, h2])
    | .isFalse h1, _ => .isFalse (by intro he; injection he with h1x _; exact h1 h1x)
    | _, .isFalse h2 =>
      .isFalse (by intro he; injection he with _ h2x; injection h2x with h2y; exact h2 h2y)
  | .valueError m1 none, .valueError m2 none =>
    match String.decEq m1 m2 with
    | .isTrue h => .isTrue (by rw [h])
    | .isFalse h => .isFalse (by intro he; injection he with h1 _; exact h h1)
  | .valueError _ none, .valueError _ (some _) => .isFalse (by intro he; simp at he)
  | .valueError _ (some _), .valueError _ none => .isFalse (by intro he; simp at he)
  | .valueError m1 (some c1), .valueError m2 (some c2) =>
    match String.decEq m1 m2, Exc.deq c1 c2 with
    | .isTrue h1, .isTrue h2 => .isTrue (by rw [h1, h2])
    | .isFalse h1, _ => .isFalse (by intro he; injection he with h1x _; exact h1 h1x)
    | _, .isFalse h2 =>
      .isFalse (by intro he; injection he with _ h2x; injection h2x with h2y; exact h2 h2y)
  | .clientError _, .connectionError _ => .isFalse (fun h => nomatch h)
  | .clientError _, .osError _ => .isFalse (fun h => nomatch h)
  | .clientError _, .importError _ _ => .isFalse (fun h => nomatch h)
  | .clientError _, .valueError _ _ => .isFalse (fun h => nomatch h)
  | .connectionError _, .clientError _ => .isFalse (fun h => nomatch h)
  | .connectionError _, .osError _ => .isFalse (fun h => nomatch h)
  | .connectionError _, .importError _ _ => .isFalse (fun h => nomatch h)
  | .connectionError _, .valueError _ _ => .isFalse (fun h => nomatch h)
  | .osError _, .clientError _ => .isFalse (fun h => nomatch h)
  | .osError _, .connectionError _ => .isFalse (fun h => nomatch h)
  | .osError _, .importError _ _ => .isFalse (fun h => nomatch h)
  | .osError _, .valueError _ _ => .isFalse (fun h => nomatch h)
  | .importError _ _, .clientError _ => .isFalse (fun h => nomatch h)
  | .importError _ _, .connectionError _ => .isFalse (fun h => nomatch h)
  | .importError _ _, .osError _ => .isFalse (fun h => nomatch h)
  | .importError _ _, .valueError _ _ => .isFalse (fun h => nomatch h)
  | .valueError _ _, .clientError _ => .isFalse (fun h => nomatch h)
  | .valueError _ _, .connectionError _ => .isFalse (fun h => nomatch h)
  | .valueError _ _, .osError _ => .isFalse (fun h => nomatch h)
  | .valueError _ _, .importError _ _ => .isFalse (fun h => nomatch h)

instance : DecidableEq Exc := Exc.deq

/-- `str(exc)` as used by the f-strings in the source.  For `ClientError`,
botocore renders "An error occurred (<code>) ..."; the exact rendering is
external to the repository, only its use as an opaque message matters. -/
def excMsg : Exc → String
  | .clientError code => "An error occurred (" ++ code ++ ") when calling an operation"
  | .connectionError m => m
  | .osError m => m
  | .importError m _ => m
  | .valueError m _ => m

/-- Whether `except self.s3.exceptions.ClientError` catches this exception:
it catches exactly the `ClientError` class (every service error response,
whatever its code). -/
def isClientError : Exc → Bool
  | .clientError _ => true
  | _ => false

/-- The `__cause__` chain of an exception: the causes reachable from it. -/
def causes : Exc → List Exc
  | .importError _ (some c) => c :: causes c
  | .valueError _ (some c) => c :: causes c
  | _ => []

/-- Splitting a character list on a nonempty separator, with Python
`str.split` semantics.  The fuel argument (any bound on the list length)
only makes the recursion structural; it never runs out when it starts at
the list's length. -/
def splitChars (sep : List Char) : Nat → List Char → List (List Char)
  | _, [] => [[]]
  | 0, l => [l]
  | fuel + 1, c :: cs =>
    if sep.isPrefixOf (c :: cs) then
      [] :: splitChars sep fuel (cs.drop (sep.length - 1))
    else
      match splitChars sep fuel cs with
      | [] => [[c]]
      | p :: ps => (c :: p) :: ps

/-- Python `s.split(sep)` for a nonempty separator. -/
def pySplit (s sep : String) : List String :=
  (splitChars sep.toList s.toList.length s.toList).map String.mk

/-- Replacing every (non-overlapping, leftmost-first) occurrence of `pat`
by `rep`, with Python `str.replace` semantics; fuel as in `splitChars`. -/
def replaceChars (pat rep : List Char) : Nat → List Char → List Char
  | _, [] => []
  | 0, l => l
  | fuel + 1, c :: cs =>
    if pat.isPrefixOf (c :: cs) then
      rep ++ replaceChars pat rep fuel (cs.drop (pat.length - 1))
    else
      c :: replaceChars pat rep fuel cs

/-- Python `s.replace(old, new)` for a nonempty `old` (the only case the
source uses). -/
def pyReplace (s old new : String) : String :=
  if old.toList.isEmpty then s
  else String.mk (replaceChars old.toList new.toList s.toList.length s.toList)

/-- Whether `sub` occurs as a contiguous run in the list. -/
def containsChars (sub : List Char) : List Char → Bool
  | [] => sub.isEmpty
  | c :: cs => sub.isPrefixOf (c :: cs) || containsChars sub cs

/-- Python `sub in s` (substring containment). -/
def pyContains (s sub : String) : Bool :=
  containsChars sub.toList s.toList

/-- Whether `p` is a string prefix of `s`, computed on the characters. -/
def strPrefix (p s : String) : Bool :=
  p.toList.isPrefixOf s.toList

/-- External calls performed by the gateway, as recorded in the trace. -/
inductive Op where
  | uploadFile (key : String)
  | deleteObject (key : String)
  | headObject (key : String)
  | presign (key : String) (expiresIn : Nat)
  | removeLocal (path : String)
  | rmtreeLocal (dir : String)
  deriving Repr, DecidableEq

/-- `os.path.dirname` for the relative paths the gateway builds: everything
before the last slash (empty when there is no slash). -/
def dirname (p : String) : String :=
  String.intercalate "/" (pySplit p "/").dropLast

/-- The external world: local staging files and directories, the objects
present in the configured bucket, the trace of performed external calls,
and injected SDK failures (per key) letting us quantify over arbitrary
backend exceptions for `upload_file`, `delete_object` and `head_object`. -/
structure World where
  endpoint : String
  bucket : String
  files : List String
  dirs : List String
  objects : List String
  trace : List Op
  sdkUploadExc : List (String × Exc)
  sdkDeleteExc : List (String × Exc)
  sdkHeadExc : List (String × Exc)
  deriving Repr, DecidableEq

/-- Association-list lookup for the injected-failure tables. -/
def findExc (tbl : List (String × Exc)) (key : String) : Option Exc :=
  match tbl.find? (fun p => p.fst == key) with
  | some p => some p.snd
  | none => none

/-- `os.listdir dir`: the entries directly inside `dir` (files and
subdirectories whose parent is `dir`). -/
def World.listdir (w : World) (d : String) : List String :=
  w.files.filter (fun f => dirname f == d) ++ w.dirs.filter (fun x => dirname x == d)

/-- Record one performed external call in the trace. -/
def World.addOp (w : World) (op : Op) : World :=
  { w with trace := w.trace ++ [op] }

/-- `self.s3.upload_file(file_direct, bucket, path)`: raises the injected
SDK failure for `path` if one is set; raises `FileNotFoundError` (an
`OSError`) when the local staging file is missing, as boto3 does; otherwise
stores the object under `path` in the bucket. -/
def uploadFileCall (w : World) (file_direct path : String) : Except Exc World :=
  let w1 := w.addOp (.uploadFile path)
  match findExc w.sdkUploadExc path with
  | some e => .error e
  | none =>
    if file_direct ∈ w.files then
      .ok { w1 with objects := path :: w1.objects }
    else
      .error (.osError ("No such file or directory: " ++ file_direct))

/-- `os.remove(file_direct)`: removes the local file, raising `OSError`
when it does not exist. -/
def removeCall (w : World) (file_direct : String) : Except Exc World :=
  if file_direct ∈ w.files then
    .ok { w.addOp (.removeLocal file_direct) with
          files := w.files.filter (fun f => f != file_direct) }
  else
    .error (.osError ("No such file or directory: " ++ file_direct))

/-- `shutil.rmtree(dir)`: removes the directory and everything below it. -/
def rmtreeCall (w : World) (d : String) : World :=
  { w.addOp (.rmtreeLocal d) with
    dirs := w.dirs.filter (fun x => x != d && !(strPrefix (d ++ "/") x)),
    files := w.files.filter (fun f => !(strPrefix (d ++ "/") f)) }

/-- `self.s3.delete_object(Bucket=..., Key=path)`: raises the injected SDK
failure for `path` if one is set; otherwise removes the object (S3 delete
succeeds whether or not the key is present). -/
def deleteObjectCall (w : World) (path : String) : Except Exc World :=
  match findExc w.sdkDeleteExc path with
  | some e => .error e
  | none =>
    .ok { w.addOp (.deleteObject path) with
          objects := w.objects.filter (fun k => k != path) }

/-- `self.s3.head_object(Bucket=..., Key=path)`: raises the injected SDK
failure for `path` if one is set; otherwise succeeds when the object exists
and raises `ClientError` with code 404 when it does not. -/
def headObjectCall (w : World) (path : String) : World × Option Exc :=
  let w1 := w.addOp (.headObject path)
  match findExc w.sdkHeadExc path with
  | some e => (w1, some e)
  | none =>
    if path ∈ w.objects then (w1, none) else (w1, some (.clientError "404"))

/-- The exception raised by `raise ValueError(f"Upload Error: {exc}") from exc`. -/
def uploadWrap (e : Exc) : Exc :=
  .valueError ("Upload Error: " ++ excMsg e) (some e)

/-- The exception raised by `raise ValueError(f"Delete Error: {exc}") from exc`. -/
def deleteWrap (e : Exc) : Exc :=
  .valueError ("Delete Error: " ++ excMsg e) (some e)

/-- `S3Minio.upload(*args)`.  The `for` loop's body either raises or hits
the `return True` sitting inside the loop, so at most the first key is ever
processed; an exhausted loop (empty `args`) falls off the end and returns
`None`.  An `upload_file` failure is wrapped by the inner handler and the
resulting `ValueError` is wrapped again by the outer handler; failures of
the cleanup code are wrapped once by the outer handler. -/
def upload (w : World) (args : List String) : Except Exc (Option Bool × World) :=
  match args with
  | [] => .ok (none, w)
  | path :: _ =>
    let file_direct := "temp/media/" ++ path
    match uploadFileCall w file_direct path with
    | .error exc => .error (uploadWrap (uploadWrap exc))
    | .ok w1 =>
      match removeCall w1 file_direct with
      | .error exc => .error (uploadWrap exc)
      | .ok w2 =>
        let dir_local := dirname file_direct
        let w3 :=
          if dir_local ∈ w2.dirs && w2.listdir dir_local == [] then
            rmtreeCall w2 dir_local
          else w2
        .ok (some true, w3)

/-- `S3Minio.delete(*args)`.  Same shape as `upload`: the `return True`
sits inside the loop, so at most the first key is deleted; empty `args`
returns `None`; a `delete_object` failure is wrapped once. -/
def delete (w : World) (args : List String) : Except Exc (Option Bool × World) :=
  match args with
  | [] => .ok (none, w)
  | path :: _ =>
    match deleteObjectCall w path with
    | .error exc => .error (deleteWrap exc)
    | .ok w1 => .ok (some true, w1)

/-- Modelled from the spec: the presigned URL produced by the external
SDK's `generate_presigned_url` — a capability URL for the object,
embedding the bucket, the key and the expiry ("a time-bounded (fixed
3600-second) capability URL", "a non-empty URL containing the bucket and
key").  The SDK's exact URL syntax is outside the repository. -/
def presignURL (endpoint bucket key : String) (expiresIn : Nat) : String :=
  endpoint ++ "/" ++ bucket ++ "/" ++ key ++ "?X-Amz-Expires=" ++ toString expiresIn

/-- `S3Minio.get_url(path)`: probes existence with `head_object`, then
generates a presigned URL with `ExpiresIn=3600`.  The whole body is under
`except self.s3.exceptions.ClientError: return None`, so any `ClientError`
becomes `None` while every other exception propagates. -/
def get_url (w : World) (path : String) : Except Exc (Option String × World) :=
  match headObjectCall w path with
  | (w1, some exc) =>
    if isClientError exc then .ok (none, w1) else .error exc
  | (w1, none) =>
    let url := presignURL w.endpoint w.bucket path 3600
    .ok (some url, w1.addOp (.presign path 3600))

/-- In-memory image pixel data, embedded as free terms over the external
imaging library's calls: `opened p` is `Image.open` applied to the file
payload `p`, `convert i mode` is `img.convert(mode)`. -/
inductive Img where
  | opened (payload : Nat)
  | convert (i : Img) (mode : String)
  deriving Repr, DecidableEq

/-- The bytes written into the `BytesIO` buffer by
`img.save(buffer, format, quality=q)`. -/
inductive Bytes where
  | encode (i : Img) (format : String) (quality : Nat)
  deriving Repr, DecidableEq

/-- A Django in-memory image file as `webp_converter` sees it: a mutable
`name` and the underlying payload that `Image.open` decodes. -/
structure DjImage where
  name : String
  payload : Nat
  deriving Repr, DecidableEq

/-- `django.core.files.base.ContentFile(buffer.getvalue())`. -/
structure ContentFile where
  bytes : Bytes
  deriving Repr, DecidableEq

/-- The extension list tried, in order, by the renaming loop. -/
def knownExtensions : List String :=
  [".jpg", ".jpeg", ".png", ".svg", ".gif"]

/-- The renaming loop of `webp_converter`: the first extension in the list
that occurs in the name (Python `if e in image.name`) has every occurrence
replaced by ".webp" (Python `str.replace` replaces all), then `break`. -/
def renameImage (name : String) : String :=
  match knownExtensions.find? (fun e => pyContains name e) with
  | some e => pyReplace name e ".webp"
  | none => name

/-- `S3Minio.webp_converter(*args)`.  `djangoImportExc` is the outcome of
`from django.core.files.base import ContentFile`: `none` when the optional
dependency is available, `some e` when the import raises `e`; in the latter
case the method re-raises `ImportError(...) from exc` before touching any
image.  The loop body ends in `return ContentFile(...)`, so at most the
first image is converted; an exhausted loop (no images) returns `None`.
The result pairs the returned value with the image list after the in-place
rename of `image.name`. -/
def webp_converter (djangoImportExc : Option Exc) (args : List DjImage) :
    Except Exc (Option ContentFile × List DjImage) :=
  match djangoImportExc with
  | some exc =>
    .error (.importError
      "Convert Error (Exclusive to Django models) | pip install django django-storages"
      (some exc))
  | none =>
    match args with
    | [] => .ok (none, [])
    | image :: rest =>
      let img := Img.convert (Img.opened image.payload) "RGB"
      let buffer := Bytes.encode img "WEBP" 75
      let renamed := { image with name := renameImage image.name }
      .ok (some ⟨buffer⟩, renamed :: rest)

/-- The characters kept by `re.sub(r'[^A-Za-z0-9._-]', '', ...)`. -/
def validChar (c : Char) : Bool :=
  (('A' ≤ c && c ≤ 'Z') || ('a' ≤ c && c ≤ 'z') || ('0' ≤ c && c ≤ '9')
    || c = '.' || c = '_' || c = '-')

/-- Python whitespace as removed by `str.strip()`. -/
def pyWhitespace (c : Char) : Bool :=
  (c = ' ' || c = '\t' || c = '\n' || c = '\r' || c = '\x0b' || c = '\x0c')

/-- Python `str.strip()`: drop leading and trailing whitespace. -/
def pyStrip (s : String) : String :=
  String.mk (((s.toList.dropWhile pyWhitespace).reverse.dropWhile pyWhitespace).reverse)

/-- The inner `get_valid_filename` of `generate_image_filename`:
`str(filename).strip().replace(' ', '_')` then
`re.sub(r'[^A-Za-z0-9._-]', '', ...)`. -/
def get_valid_filename (filename : String) : String :=
  let f := pyReplace (pyStrip filename) " " "_"
  String.mk (f.toList.filter validChar)

/-- The model instance handed to `generate_image_filename`:
`instance.__class__.__name__` and the string that
`instance.created_at.strftime("%Y-%m-%d-%H-%M-%S-%F")` renders (the
rendering itself is done by the external datetime library). -/
structure ModelInstance where
  className : String
  createdAtStr : String
  deriving Repr, DecidableEq

/-- `generate_image_filename(instance, filename)`.  `random_number` is the
value drawn by `random.randint(1000, 9999)`, passed in explicitly since it
is the only nondeterministic input.  (The source's parameter is named
`instance`, a Lean keyword, hence `inst` here.) -/
def generate_image_filename (inst : ModelInstance) (filename : String)
    (random_number : Nat) : String :=
  let file_ext := (pySplit filename ".").getLastD ""
  let class_name := inst.className
  let timestamped_name := inst.createdAtStr
  let valid_filename :=
    get_valid_filename (timestamped_name ++ "-" ++ toString random_number ++ "." ++ file_ext)
  class_name ++ "/" ++ timestamped_name ++ "/" ++ valid_filename

/-! Helper predicates used by the claim statements. -/

/-- The upload-error kind: the `ValueError` raised by `upload` carries a
message with the "Upload Error: " marker. -/
def isUploadErrorKind : Exc → Bool
  | .valueError m _ => "Upload Error: ".data.isPrefixOf m.data
  | _ => false

/-- The delete-error kind: the `ValueError` raised by `delete` carries a
message with the "Delete Error: " marker. -/
def isDeleteErrorKind : Exc → Bool
  | .valueError m _ => "Delete Error: ".data.isPrefixOf m.data
  | _ => false

/-- The missing-dependency error kind raised by `webp_converter` when the
Django import fails. -/
def isMissingDependencyKind : Exc → Bool
  | .importError _ _ => true
  | _ => false

/-- A sample world used by the witnesses: one staged file, its staging
directories, an empty bucket, no injected SDK failures. -/
def sampleWorld : World :=
  { endpoint := "http://minio.local:9000", bucket := "media",
    files := ["temp/media/pic.png"], dirs := ["temp", "temp/media"],
    objects := [], trace := [],
    sdkUploadExc := [], sdkDeleteExc := [], sdkHeadExc := [] }

end S3MinioModel

namespace S3MinioModel

/-- C10: calling `upload` or `delete` with an empty key sequence performs
no backend operation and returns Python `None` (neither `True` nor an
exception): the loop body never runs, the world (trace included) is
untouched, and the fall-through return value is `None`. -/
theorem empty_args_returns_none (w : World) :
    upload w [] = .ok (none, w) ∧ delete w [] = .ok (none, w) :=
  ⟨rfl, rfl⟩

/-- C5: on a sequence of two or more keys, `delete` returns `True` after
deleting only the first key: the only backend call performed is the
`delete_object` for the first key, and the bucket loses exactly that key. -/
theorem delete_processes_only_first_key (w : World) (k1 k2 : String)
    (rest : List String) (hexc : findExc w.sdkDeleteExc k1 = none) :
    ∃ w', delete w (k1 :: k2 :: rest) = .ok (some true, w')
      ∧ w'.trace = w.trace ++ [Op.deleteObject k1]
      ∧ w'.objects = w.objects.filter (fun k => k != k1) := by
  have hD : deleteObjectCall w k1 =
      .ok { w with objects := w.objects.filter (fun k => k != k1),
                   trace := w.trace ++ [Op.deleteObject k1] } := by
    unfold deleteObjectCall World.addOp
    rw [hexc]
  refine ⟨{ w with objects := w.objects.filter (fun k => k != k1),
                   trace := w.trace ++ [Op.deleteObject k1] }, ?_, rfl, rfl⟩
  simp only [delete, hD]

/-- C6: an SDK exception raised by `upload_file` is re-raised by `upload`
as an upload-error `ValueError` whose cause chain contains the original
exception (wrapped twice: once by the inner handler, once by the outer),
and an SDK exception raised by `delete_object` is re-raised by `delete` as
a delete-error `ValueError` whose direct cause is the original exception;
neither call swallows the exception. -/
theorem sdk_exceptions_rewrapped_with_cause (w : World) (k : String)
    (rest : List String) (e : Exc)
    (hu : findExc w.sdkUploadExc k = some e)
    (hd : findExc w.sdkDeleteExc k = some e) :
    (upload w (k :: rest) = .error (uploadWrap (uploadWrap e))
      ∧ isUploadErrorKind (uploadWrap (uploadWrap e)) = true
      ∧ e ∈ causes (uploadWrap (uploadWrap e)))
    ∧ (delete w (k :: rest) = .error (deleteWrap e)
      ∧ isDeleteErrorKind (deleteWrap e) = true
      ∧ e ∈ causes (deleteWrap e)) := by
  have hU : uploadFileCall w ("temp/media/" ++ k) k = .error e := by
    simp only [uploadFileCall, hu]
  have hD : deleteObjectCall w k = .error e := by
    simp only [deleteObjectCall, hd]
  refine ⟨⟨?_, ?_, ?_⟩, ⟨?_, ?_, ?_⟩⟩
  · simp only [upload, hU]
  · simp [isUploadErrorKind, uploadWrap, excMsg, List.isPrefixOf_iff_prefix,
      String.data_append]
  · simp [causes, uploadWrap]
  · simp only [delete, hD]
  · simp [isDeleteErrorKind, deleteWrap, excMsg, List.isPrefixOf_iff_prefix,
      String.data_append]
  · simp [causes, deleteWrap]

/-- Witness for C6 at a concrete world: the backend is down for key
"pic.png" on both calls; both operations surface wrapped errors whose
cause chain holds the original connection error. -/
theorem sdk_exceptions_rewrapped_with_cause_witness :
    (upload { sampleWorld with
                sdkUploadExc := [("pic.png", Exc.connectionError "down")],
                sdkDeleteExc := [("pic.png", Exc.connectionError "down")] }
        ["pic.png"]
        = .error (uploadWrap (uploadWrap (Exc.connectionError "down")))
      ∧ isUploadErrorKind (uploadWrap (uploadWrap (Exc.connectionError "down"))) = true
      ∧ Exc.connectionError "down" ∈ causes (uploadWrap (uploadWrap (Exc.connectionError "down"))))
    ∧ (delete { sampleWorld with
                  sdkUploadExc := [("pic.png", Exc.connectionError "down")],
                  sdkDeleteExc := [("pic.png", Exc.connectionError "down")] }
        ["pic.png"]
        = .error (deleteWrap (Exc.connectionError "down"))
      ∧ isDeleteErrorKind (deleteWrap (Exc.connectionError "down")) = true
      ∧ Exc.connectionError "down" ∈ causes (deleteWrap (Exc.connectionError "down"))) :=
  sdk_exceptions_rewrapped_with_cause _ "pic.png" [] (Exc.connectionError "down") rfl rfl

/-- C9: when the optional Django dependency is unavailable (the import
raises), `webp_converter` fails fast with the missing-dependency
`ImportError` carrying the import failure as its cause, before touching
any image, whatever the input sequence. -/
theorem webp_converter_fails_fast_without_django (e : Exc) (args : List DjImage) :
    webp_converter (some e) args
      = .error (.importError
          "Convert Error (Exclusive to Django models) | pip install django django-storages"
          (some e))
      ∧ isMissingDependencyKind
          (.importError
            "Convert Error (Exclusive to Django models) | pip install django django-storages"
            (some e)) = true :=
  ⟨rfl, rfl⟩

/-- C8 counterexample: with two images and Django available, the call
returns after the first image — the second image is neither re-encoded
(the single returned `ContentFile` holds only the first image's WEBP
bytes) nor renamed (its name keeps ".png"), refuting "each image in the
sequence is re-encoded ... and each image's name has one known extension
swapped". -/
theorem webp_converter_skips_second_image :
    webp_converter none [⟨"a.jpg", 0⟩, ⟨"b.png", 1⟩]
      = .ok (some ⟨Bytes.encode (Img.convert (Img.opened 0) "RGB") "WEBP" 75⟩,
          [⟨"a.webp", 0⟩, ⟨"b.png", 1⟩])
    ∧ ("b.png" : String) ≠ "b.webp" :=
  ⟨by rfl, by decide⟩

/-- C8 amended: for every nonempty image sequence (Django available), only
the FIRST image is re-encoded — to WEBP at quality 75 after the forced
"RGB" conversion — and only its name is rewritten, every occurrence of the
first known extension found in it becoming ".webp"; the remaining images
are returned unchanged and unconverted, the call returning the single
`ContentFile` of the first image. -/
theorem webp_converter_converts_first_image_only (image : DjImage)
    (rest : List DjImage) :
    webp_converter none (image :: rest)
      = .ok (some ⟨Bytes.encode (Img.convert (Img.opened image.payload) "RGB") "WEBP" 75⟩,
          { image with name := renameImage image.name } :: rest) :=
  rfl

/-- Nonemptiness of the generated presigned URL. -/
theorem presignURL_ne_empty (e b k : String) (n : Nat) :
    presignURL e b k n ≠ "" := by
  intro h
  have hlen := congrArg String.length h
  simp only [presignURL, String.length_append,
    show ("/" : String).length = 1 from rfl,
    show ("?X-Amz-Expires=" : String).length = 15 from rfl,
    show ("" : String).length = 0 from rfl] at hlen
  omega

/-- C2: probing a key with no injected SDK failure, `get_url` returns a
non-empty URL that contains the bucket name and the key when the object
exists, passing the fixed 3600-second expiry to the SDK (recorded by the
presign trace entry and embedded in the URL), and returns `None` without
raising when the object is absent (the 404 `ClientError` of the probe is
suppressed). -/
theorem get_url_presence_and_absence (w : World) (path : String)
    (hexc : findExc w.sdkHeadExc path = none) :
    (path ∈ w.objects →
      ∃ url w', get_url w path = .ok (some url, w')
        ∧ url ≠ ""
        ∧ (∃ p q, url = p ++ w.bucket ++ q)
        ∧ (∃ p q, url = p ++ path ++ q)
        ∧ Op.presign path 3600 ∈ w'.trace)
    ∧ (path ∉ w.objects →
      get_url w path = .ok (none, w.addOp (.headObject path))) := by
  constructor
  · intro hmem
    have hH : headObjectCall w path = (w.addOp (.headObject path), none) := by
      simp only [headObjectCall, hexc]
      rw [if_pos hmem]
    refine ⟨presignURL w.endpoint w.bucket path 3600,
      (w.addOp (.headObject path)).addOp (.presign path 3600),
      ?_, presignURL_ne_empty _ _ _ _,
      ⟨w.endpoint ++ "/", "/" ++ path ++ "?X-Amz-Expires=" ++ toString 3600, ?_⟩,
      ⟨w.endpoint ++ "/" ++ w.bucket ++ "/", "?X-Amz-Expires=" ++ toString 3600, ?_⟩,
      ?_⟩
    · simp only [get_url, hH]
    · simp [presignURL, String.append_assoc]
    · simp [presignURL, String.append_assoc]
    · simp [World.addOp]
  · intro hmem
    have hH : headObjectCall w path
        = (w.addOp (.headObject path), some (.clientError "404")) := by
      simp only [headObjectCall, hexc]
      rw [if_neg hmem]
    simp only [get_url, hH, isClientError, if_true]

/-- Witness for C2: in a world whose bucket "media" holds "pic.png", the
URL is produced (present case); for the absent key "other.png" the call
returns the sentinel. -/
theorem get_url_presence_and_absence_witness :
    (∃ url w',
        get_url { sampleWorld with objects := ["pic.png"] } "pic.png"
          = .ok (some url, w')
        ∧ url ≠ ""
        ∧ (∃ p q, url = p ++ "media" ++ q)
        ∧ (∃ p q, url = p ++ "pic.png" ++ q)
        ∧ Op.presign "pic.png" 3600 ∈ w'.trace)
    ∧ get_url sampleWorld "other.png"
        = .ok (none, sampleWorld.addOp (.headObject "other.png")) :=
  ⟨(get_url_presence_and_absence { sampleWorld with objects := ["pic.png"] }
      "pic.png" rfl).1 (by decide),
   (get_url_presence_and_absence sampleWorld "other.png" rfl).2 (by decide)⟩

/-- A world whose existence probe for "file.txt" fails with an
authorization `ClientError` (code "AccessDenied"), not the not-found one. -/
def authErrWorld : World :=
  { sampleWorld with sdkHeadExc := [("file.txt", .clientError "AccessDenied")] }

/-- A world whose existence probe for "file.txt" fails with a
non-`ClientError` failure (backend unreachable). -/
def connErrWorld : World :=
  { sampleWorld with sdkHeadExc := [("file.txt", .connectionError "unreachable")] }

/-- C3 counterexample: an authorization `ClientError` ("AccessDenied",
distinct from the not-found code "404") raised by the existence probe is
converted to the absence sentinel `None` instead of surfacing as an
exception — the handler catches every `ClientError`, not only the
not-found one. -/
theorem get_url_suppresses_authorization_client_error :
    get_url authErrWorld "file.txt"
      = .ok (none, authErrWorld.addOp (.headObject "file.txt"))
    ∧ Exc.clientError "AccessDenied" ≠ Exc.clientError "404" :=
  ⟨by rfl, by decide⟩

/-- C3 amended: every `ClientError` raised by the existence probe — the
not-found one and any other, such as an authorization failure — is
suppressed into the absence sentinel, while every non-`ClientError`
backend failure (for example, storage backend unreachable) surfaces to the
caller as an exception. -/
theorem get_url_client_error_handling (w : World) (path : String) (e : Exc)
    (hexc : findExc w.sdkHeadExc path = some e) :
    (isClientError e = true →
      get_url w path = .ok (none, w.addOp (.headObject path)))
    ∧ (isClientError e = false → get_url w path = .error e) := by
  have hH : headObjectCall w path = (w.addOp (.headObject path), some e) := by
    simp only [headObjectCall, hexc]
  constructor
  · intro hce
    simp only [get_url, hH, hce, if_true]
  · intro hce
    simp only [get_url, hH, hce, Bool.false_eq_true, if_false]

/-- Witness for C3's amended statement: the "AccessDenied" `ClientError`
yields the sentinel; the connection failure propagates. -/
theorem get_url_client_error_handling_witness :
    get_url authErrWorld "file.txt"
      = .ok (none, authErrWorld.addOp (.headObject "file.txt"))
    ∧ get_url connErrWorld "file.txt" = .error (.connectionError "unreachable") :=
  ⟨(get_url_client_error_handling authErrWorld "file.txt"
      (.clientError "AccessDenied") rfl).1 rfl,
   (get_url_client_error_handling connErrWorld "file.txt"
      (.connectionError "unreachable") rfl).2 rfl⟩

/-- C1: on a sequence of two or more keys whose first key is properly
staged, `upload` returns `True` after processing only the first key: the
first key's object is stored, its staging file is removed (with the
optional empty-directory cleanup), and the trace shows that no
`upload_file` call — indeed no call at all — happens for any subsequent
key. -/
theorem upload_processes_only_first_key (w : World) (k1 k2 : String)
    (rest : List String)
    (hfile : "temp/media/" ++ k1 ∈ w.files)
    (hexc : findExc w.sdkUploadExc k1 = none) :
    ∃ w', upload w (k1 :: k2 :: rest) = .ok (some true, w')
      ∧ k1 ∈ w'.objects
      ∧ "temp/media/" ++ k1 ∉ w'.files
      ∧ (w'.trace = w.trace
            ++ [Op.uploadFile k1, Op.removeLocal ("temp/media/" ++ k1)]
        ∨ w'.trace = w.trace
            ++ [Op.uploadFile k1, Op.removeLocal ("temp/media/" ++ k1),
                Op.rmtreeLocal (dirname ("temp/media/" ++ k1))]) := by
  have hA : uploadFileCall w ("temp/media/" ++ k1) k1 =
      .ok { w with objects := k1 :: w.objects,
                   trace := w.trace ++ [Op.uploadFile k1] } := by
    simp only [uploadFileCall, hexc, World.addOp]
    rw [if_pos hfile]
  have hB : removeCall
      { w with objects := k1 :: w.objects,
               trace := w.trace ++ [Op.uploadFile k1] }
      ("temp/media/" ++ k1) =
      .ok { w with objects := k1 :: w.objects,
                   trace := (w.trace ++ [Op.uploadFile k1])
                     ++ [Op.removeLocal ("temp/media/" ++ k1)],
                   files := w.files.filter
                     (fun f => f != "temp/media/" ++ k1) } := by
    simp only [removeCall, World.addOp]
    rw [if_pos hfile]
  simp only [upload, hA, hB]
  refine ⟨_, rfl, ?_, ?_, ?_⟩
  · split
    · simp [rmtreeCall, World.addOp]
    · simp
  · split
    · simp [rmtreeCall, World.addOp, List.mem_filter]
    · simp [List.mem_filter]
  · split
    · right
      simp [rmtreeCall, World.addOp, List.append_assoc]
    · left
      simp [List.append_assoc]

/-- Witness for C1: uploading the staged "pic.png" with a second key
"other.png" supplied. -/
theorem upload_processes_only_first_key_witness :
    ∃ w', upload sampleWorld ["pic.png", "other.png"] = .ok (some true, w')
      ∧ "pic.png" ∈ w'.objects
      ∧ "temp/media/" ++ "pic.png" ∉ w'.files
      ∧ (w'.trace = sampleWorld.trace
            ++ [Op.uploadFile "pic.png", Op.removeLocal ("temp/media/" ++ "pic.png")]
        ∨ w'.trace = sampleWorld.trace
            ++ [Op.uploadFile "pic.png", Op.removeLocal ("temp/media/" ++ "pic.png"),
                Op.rmtreeLocal (dirname ("temp/media/" ++ "pic.png"))]) :=
  upload_processes_only_first_key sampleWorld "pic.png" "other.png" []
    (by decide) rfl

/-- C4: uploading a single properly staged key stores the object in the
bucket under that key, removes the local staging file
temp/media/(key), and — whenever the staging file's parent directory is
empty afterwards — that directory has been removed as well. -/
theorem upload_single_staging_file (w : World) (k : String)
    (hfile : "temp/media/" ++ k ∈ w.files)
    (hexc : findExc w.sdkUploadExc k = none) :
    ∃ w', upload w [k] = .ok (some true, w')
      ∧ k ∈ w'.objects
      ∧ "temp/media/" ++ k ∉ w'.files
      ∧ (w'.listdir (dirname ("temp/media/" ++ k)) = [] →
          dirname ("temp/media/" ++ k) ∉ w'.dirs) := by
  have hA : uploadFileCall w ("temp/media/" ++ k) k =
      .ok { w with objects := k :: w.objects,
                   trace := w.trace ++ [Op.uploadFile k] } := by
    simp only [uploadFileCall, hexc, World.addOp]
    rw [if_pos hfile]
  have hB : removeCall
      { w with objects := k :: w.objects,
               trace := w.trace ++ [Op.uploadFile k] }
      ("temp/media/" ++ k) =
      .ok { w with objects := k :: w.objects,
                   trace := (w.trace ++ [Op.uploadFile k])
                     ++ [Op.removeLocal ("temp/media/" ++ k)],
                   files := w.files.filter
                     (fun f => f != "temp/media/" ++ k) } := by
    simp only [removeCall, World.addOp]
    rw [if_pos hfile]
  simp only [upload, hA, hB]
  refine ⟨_, rfl, ?_, ?_, ?_⟩
  · split
    · simp [rmtreeCall, World.addOp]
    · simp
  · split
    · simp [rmtreeCall, World.addOp, List.mem_filter]
    · simp [List.mem_filter]
  · split
    · intro _
      simp [rmtreeCall, World.addOp, List.mem_filter]
    · intro hempty
      rename_i hcond
      rw [hempty] at hcond
      simpa using hcond

/-- Witness for C4: uploading the staged "pic.png" alone; its parent
directory temp/media becomes empty and is removed. -/
theorem upload_single_staging_file_witness :
    ∃ w', upload sampleWorld ["pic.png"] = .ok (some true, w')
      ∧ "pic.png" ∈ w'.objects
      ∧ "temp/media/" ++ "pic.png" ∉ w'.files
      ∧ (w'.listdir (dirname ("temp/media/" ++ "pic.png")) = [] →
          dirname ("temp/media/" ++ "pic.png") ∉ w'.dirs) :=
  upload_single_staging_file sampleWorld "pic.png" (by decide) rfl

/-- Witness for C5: deleting "a" with a second key "b" supplied, both
present in the bucket. -/
theorem delete_processes_only_first_key_witness :
    ∃ w', delete { sampleWorld with objects := ["a", "b"] } ["a", "b"]
        = .ok (some true, w')
      ∧ w'.trace = ({ sampleWorld with objects := ["a", "b"] } : World).trace
          ++ [Op.deleteObject "a"]
      ∧ w'.objects = (["a", "b"] : List String).filter (fun k => k != "a") :=
  delete_processes_only_first_key { sampleWorld with objects := ["a", "b"] }
    "a" "b" [] rfl

/-! Decimal length of the random component drawn from randint(1000, 9999). -/

theorem toDigitsCore_length_one_digit (fuel n : Nat) (ds : List Char)
    (hf : 1 ≤ fuel) (h1 : 1 ≤ n) (h2 : n ≤ 9) :
    (Nat.toDigitsCore 10 fuel n ds).length = ds.length + 1 := by
  obtain ⟨f, rfl⟩ : ∃ f, fuel = f + 1 := ⟨fuel - 1, by omega⟩
  have hdiv : n / 10 = 0 := Nat.div_eq_of_lt (by omega)
  simp [Nat.toDigitsCore, hdiv]

theorem toDigitsCore_length_two_digits (fuel n : Nat) (ds : List Char)
    (hf : 2 ≤ fuel) (h1 : 10 ≤ n) (h2 : n ≤ 99) :
    (Nat.toDigitsCore 10 fuel n ds).length = ds.length + 2 := by
  obtain ⟨f, rfl⟩ : ∃ f, fuel = f + 1 := ⟨fuel - 1, by omega⟩
  have hlow : 1 ≤ n / 10 := (Nat.le_div_iff_mul_le (by omega)).mpr (by omega)
  have hhigh : n / 10 ≤ 9 := by
    have := (Nat.div_lt_iff_lt_mul (k := 10) (by omega)).mpr
      (show n < 10 * 10 by omega)
    omega
  have hdiv : ¬(n / 10 = 0) := by omega
  rw [show Nat.toDigitsCore 10 (f + 1) n ds
      = Nat.toDigitsCore 10 f (n / 10) (Nat.digitChar (n % 10) :: ds) by
    simp [Nat.toDigitsCore, hdiv]]
  rw [toDigitsCore_length_one_digit f (n / 10) _ (by omega) hlow hhigh]
  simp

theorem toDigitsCore_length_three_digits (fuel n : Nat) (ds : List Char)
    (hf : 3 ≤ fuel) (h1 : 100 ≤ n) (h2 : n ≤ 999) :
    (Nat.toDigitsCore 10 fuel n ds).length = ds.length + 3 := by
  obtain ⟨f, rfl⟩ : ∃ f, fuel = f + 1 := ⟨fuel - 1, by omega⟩
  have hlow : 10 ≤ n / 10 := (Nat.le_div_iff_mul_le (by omega)).mpr (by omega)
  have hhigh : n / 10 ≤ 99 := by
    have := (Nat.div_lt_iff_lt_mul (k := 10) (by omega)).mpr
      (show n < 100 * 10 by omega)
    omega
  have hdiv : ¬(n / 10 = 0) := by omega
  rw [show Nat.toDigitsCore 10 (f + 1) n ds
      = Nat.toDigitsCore 10 f (n / 10) (Nat.digitChar (n % 10) :: ds) by
    simp [Nat.toDigitsCore, hdiv]]
  rw [toDigitsCore_length_two_digits f (n / 10) _ (by omega) hlow hhigh]
  simp

theorem toDigitsCore_length_four_digits (fuel n : Nat) (ds : List Char)
    (hf : 4 ≤ fuel) (h1 : 1000 ≤ n) (h2 : n ≤ 9999) :
    (Nat.toDigitsCore 10 fuel n ds).length = ds.length + 4 := by
  obtain ⟨f, rfl⟩ : ∃ f, fuel = f + 1 := ⟨fuel - 1, by omega⟩
  have hlow : 100 ≤ n / 10 := (Nat.le_div_iff_mul_le (by omega)).mpr (by omega)
  have hhigh : n / 10 ≤ 999 := by
    have := (Nat.div_lt_iff_lt_mul (k := 10) (by omega)).mpr
      (show n < 1000 * 10 by omega)
    omega
  have hdiv : ¬(n / 10 = 0) := by omega
  rw [show Nat.toDigitsCore 10 (f + 1) n ds
      = Nat.toDigitsCore 10 f (n / 10) (Nat.digitChar (n % 10) :: ds) by
    simp [Nat.toDigitsCore, hdiv]]
  rw [toDigitsCore_length_three_digits f (n / 10) _ (by omega) hlow hhigh]
  simp

/-- A number drawn from randint(1000, 9999) prints with exactly four
decimal digits. -/
theorem repr_length_four (r : Nat) (h1 : 1000 ≤ r) (h2 : r ≤ 9999) :
    (Nat.repr r).length = 4 := by
  show (Nat.toDigitsCore 10 (r + 1) r []).length = 4
  rw [toDigitsCore_length_four_digits (r + 1) r [] (by omega) h1 h2]
  rfl

/-- The final-segment sanitization exactly as the claim words it: FIRST
replace spaces with underscores, THEN strip every character outside
A-Za-z0-9 dot underscore hyphen — with no whitespace trimming step. -/
def claimSanitize (s : String) : String :=
  String.mk ((pyReplace s " " "_").toList.filter validChar)

/-- The output shape asserted by the claim, built with the claim's
sanitization procedure. -/
def claimFilenamePath (inst : ModelInstance) (filename : String)
    (r : Nat) : String :=
  inst.className ++ "/" ++ inst.createdAtStr ++ "/"
    ++ claimSanitize (inst.createdAtStr ++ "-" ++ toString r ++ "."
        ++ (pySplit filename ".").getLastD "")

/-- The sanitization as the amended claim words it: trim leading and
trailing whitespace, then replace spaces with underscores, then strip
every character outside the allowed class. -/
def amendedSanitize (s : String) : String :=
  String.mk ((pyReplace (pyStrip s) " " "_").toList.filter validChar)

/-- The output shape of the amended claim. -/
def amendedFilenamePath (inst : ModelInstance) (filename : String)
    (r : Nat) : String :=
  inst.className ++ "/" ++ inst.createdAtStr ++ "/"
    ++ amendedSanitize (inst.createdAtStr ++ "-" ++ toString r ++ "."
        ++ (pySplit filename ".").getLastD "")

/-- C7 counterexample: for the filename "photo.jpg " (trailing space) the
code's output ends in ".jpg" — `str.strip()` removes the trailing space
before the space-to-underscore replacement — while the claim's
replace-then-strip sanitization would keep it as a trailing underscore
".jpg_"; so the claimed shape fails at this input even though the random
component is in range. -/
theorem generate_image_filename_claim_counterexample :
    generate_image_filename ⟨"Post", "2024-01-02-03-04-05-2024-01-02"⟩
        "photo.jpg " 1234
      ≠ claimFilenamePath ⟨"Post", "2024-01-02-03-04-05-2024-01-02"⟩
        "photo.jpg " 1234
    ∧ 1000 ≤ 1234 ∧ 1234 ≤ 9999 := by
  refine ⟨?_, by omega, by omega⟩
  decide

/-- C7 amended: for every owning entity, timestamp rendering and original
filename, the generated path has the shape
className / timestamp / sanitized(timestamp-random.extension), where the
final segment is sanitized by first trimming leading and trailing
whitespace, then replacing spaces with underscores, then stripping every
character outside A-Za-z0-9 dot underscore hyphen; the final segment
contains only characters of that class, and the random component drawn
from randint(1000, 9999) is a 4-digit number. -/
theorem generate_image_filename_shape (inst : ModelInstance)
    (filename : String) (r : Nat) (h1 : 1000 ≤ r) (h2 : r ≤ 9999) :
    generate_image_filename inst filename r = amendedFilenamePath inst filename r
    ∧ (∀ c ∈ (amendedSanitize (inst.createdAtStr ++ "-" ++ toString r ++ "."
        ++ (pySplit filename ".").getLastD "")).toList, validChar c = true)
    ∧ (toString r).length = 4 := by
  refine ⟨rfl, ?_, repr_length_four r h1 h2⟩
  intro c hc
  simp only [amendedSanitize, String.toList] at hc
  exact (List.mem_filter.mp hc).2

/-- Witness for C7's amended statement at the spec's own test scenario:
entity type Post, timestamp rendering of 2024-01-02T03:04:05, filename
"My Photo #1.JPG", random component 1234. -/
theorem generate_image_filename_shape_witness :
    generate_image_filename ⟨"Post", "2024-01-02-03-04-05-2024-01-02"⟩
        "My Photo #1.JPG" 1234
      = amendedFilenamePath ⟨"Post", "2024-01-02-03-04-05-2024-01-02"⟩
        "My Photo #1.JPG" 1234
    ∧ (∀ c ∈ (amendedSanitize ("2024-01-02-03-04-05-2024-01-02" ++ "-"
        ++ toString 1234 ++ "."
        ++ (pySplit "My Photo #1.JPG" ".").getLastD "")).toList,
        validChar c = true)
    ∧ (toString 1234).length = 4 :=
  generate_image_filename_shape ⟨"Post", "2024-01-02-03-04-05-2024-01-02"⟩
    "My Photo #1.JPG" 1234 (by omega) (by omega)

end S3MinioModel
